import Mathlib

/-!
Shallow embedding of the client-side session/token lifecycle and local
state-synchronization logic of the IAM administration front-end:
the HTTP client's 401 refresh-and-retry interceptor (src/services/api.ts),
the session store (src/store/authStore.ts, `useAuthStore`), the user
collection store (src/store/userStore.ts, `useUserStore`) and the
authorization store (src/store/authStore.ts, `useAuthorizationStore`).

Asynchronous network calls are modelled by passing the server's outcome of
each call as an explicit argument (`Except ApiError …`); each store action
becomes a pure function from the pre-state (store state plus the relevant
persisted `localStorage` keys) and those outcomes to the post-state together
with the value returned or the error re-raised to the caller, and the
user-visible toast notifications emitted.
-/

namespace IamFrontend

/-- Identity snapshot of the authenticated principal
(`UserInfo` in src/types/index.ts). -/
structure UserInfo where
  userId : String
  email : String
  username : String
  name : String
  deriving DecidableEq, Repr

/-- A managed user record (`User` in src/types/index.ts); only the fields the
store logic inspects (`userId`) plus representative payload fields. -/
structure User where
  userId : String
  email : String
  username : String
  deriving DecidableEq, Repr

/-- A role record (`Role` in src/types/index.ts), reduced to its identifying
fields; the store logic never inspects role fields. -/
structure Role where
  roleId : String
  roleName : String
  deriving DecidableEq, Repr

/-- A permission record (`Permission` in src/types/index.ts), reduced to its
identifying fields. -/
structure Permission where
  permissionId : String
  permissionName : String
  deriving DecidableEq, Repr

/-- A rejected axios call as observed by the stores and the interceptor:
`error.response?.status`, `error.response?.data?.error` and `error.message`.
`none` models an absent field. -/
structure ApiError where
  status : Option Nat
  respDataError : Option String
  message : Option String
  deriving DecidableEq, Repr

/-- `error.response?.data?.error || fallback` (the pattern used by every
store catch block). -/
def ApiError.errorOr (e : ApiError) (fallback : String) : String :=
  e.respDataError.getD fallback

/-- An error thrown out of a store action: either a locally thrown `Error`
(`new Error('No refresh token available')`) or a re-raised api error. -/
inductive StoreError where
  | noRefreshToken
  | api (e : ApiError)
  deriving DecidableEq, Repr

/-- The browser `localStorage` keys this code reads and writes:
`accessToken`, `refreshToken` and `user`.  `none` means the key is absent. -/
structure LocalStorage where
  accessToken : Option String
  refreshToken : Option String
  user : Option String
  deriving DecidableEq, Repr

/-- `ApiClient.clearTokens` (src/services/api.ts): removes the three
persisted credential keys. -/
def clearTokens (_ls : LocalStorage) : LocalStorage :=
  { accessToken := none, refreshToken := none, user := none }

-- ===============================================================
-- Session store (useAuthStore, src/store/authStore.ts)
-- ===============================================================

/-- The session store's state (`AuthState` in src/types/index.ts). -/
structure AuthState where
  user : Option UserInfo
  token : Option String
  refreshToken : Option String
  isAuthenticated : Bool
  isLoading : Bool
  deriving DecidableEq, Repr

/-- The initial session store state (src/store/authStore.ts lines 33-37). -/
def initialAuthState : AuthState :=
  { user := none, token := none, refreshToken := none,
    isAuthenticated := false, isLoading := false }

/-- The spec's Session invariant: `isAuthenticated` is true iff both the
identity and the access token are present. -/
def authInvariant (s : AuthState) : Prop :=
  s.isAuthenticated = true ↔ (s.user.isSome = true ∧ s.token.isSome = true)

instance (s : AuthState) : Decidable (authInvariant s) := by
  unfold authInvariant; infer_instance

/-- The payload of a successful `POST /auth/login` (the `data` field of the
response envelope, destructured at src/store/authStore.ts line 43). -/
structure LoginData where
  accessToken : String
  refreshToken : String
  userInfo : UserInfo
  deriving DecidableEq, Repr

/-- The payload of a successful `POST /auth/refresh` (destructured at
src/store/authStore.ts line 93). -/
structure RefreshData where
  accessToken : String
  userInfo : UserInfo
  deriving DecidableEq, Repr

deriving instance DecidableEq for Except

/-- Result of a session store action: the post-state, the post
`localStorage`, the value returned or error re-raised to the caller, and the
toasts emitted. -/
structure AuthOpResult where
  state : AuthState
  ls : LocalStorage
  result : Except StoreError Unit
  toasts : List String
  deriving DecidableEq, Repr

namespace AuthStore

/-- `login` (src/store/authStore.ts lines 39-63).  Sets `isLoading`, awaits
the login call (outcome passed in), then on success persists both tokens and
installs the authenticated session; on failure only clears `isLoading`,
toasts the extracted message and re-raises. -/
def login (s : AuthState) (ls : LocalStorage)
    (outcome : Except ApiError LoginData) : AuthOpResult :=
  let s1 : AuthState := { s with isLoading := true }
  match outcome with
  | .ok d =>
      let ls' := { ls with accessToken := some d.accessToken,
                           refreshToken := some d.refreshToken }
      { state := { user := some d.userInfo, token := some d.accessToken,
                   refreshToken := some d.refreshToken,
                   isAuthenticated := true, isLoading := false },
        ls := ls',
        result := .ok (),
        toasts := ["Login successful!"] }
  | .error e =>
      { state := { s1 with isLoading := false },
        ls := ls,
        result := .error (.api e),
        toasts := [e.errorOr "Login failed"] }

/-- `ApiClient.logout` (src/services/api.ts lines 117-127): posts
`/auth/logout` only when an access token is stored, swallows any failure of
that post (console.warn), and always clears the three persisted keys.
Returns the post `localStorage`; the call itself never rejects. -/
def apiLogout (ls : LocalStorage) (serverOutcome : Except ApiError Unit) :
    LocalStorage :=
  match ls.accessToken, serverOutcome with
  | some _, .ok _ => clearTokens ls
  | some _, .error _ => clearTokens ls   -- caught: console.warn, then fall through
  | none, _ => clearTokens ls            -- no token: post skipped entirely

/-- `logout` (src/store/authStore.ts lines 65-85).  Calls `api.logout()`
inside a try/catch (the api call never rejects, so the catch is dead code),
removes the three persisted keys again, and resets the session state. -/
def logout (s : AuthState) (ls : LocalStorage)
    (serverOutcome : Except ApiError Unit) : AuthOpResult :=
  let ls1 := apiLogout ls serverOutcome
  let ls2 : LocalStorage :=
    { ls1 with accessToken := none, refreshToken := none, user := none }
  { state := { s with user := none, token := none, refreshToken := none,
                      isAuthenticated := false, isLoading := false },
    ls := ls2,
    result := .ok (),
    toasts := ["Logged out successfully"] }

/-- `refreshToken` (src/store/authStore.ts lines 87-111).  Throws
immediately when no refresh token is stored in the state; otherwise awaits
`POST /auth/refresh` (outcome passed in): on success persists the new access
token and installs it with the returned identity; on failure clears the
in-memory session fields and re-raises.  The catch block touches no
`localStorage` key. -/
def refreshTokenOp (s : AuthState) (ls : LocalStorage)
    (outcome : Except ApiError RefreshData) : AuthOpResult :=
  match s.refreshToken with
  | none =>
      { state := s, ls := ls, result := .error .noRefreshToken, toasts := [] }
  | some _ =>
      match outcome with
      | .ok d =>
          { state := { s with token := some d.accessToken,
                              user := some d.userInfo,
                              isAuthenticated := true },
            ls := { ls with accessToken := some d.accessToken },
            result := .ok (),
            toasts := [] }
      | .error e =>
          { state := { s with user := none, token := none,
                              refreshToken := none,
                              isAuthenticated := false },
            ls := ls,
            result := .error (.api e),
            toasts := [] }

end AuthStore

-- ===============================================================
-- HTTP client response interceptor (ApiClient.setupInterceptors,
-- src/services/api.ts lines 38-77)
-- ===============================================================

/-- The server's behaviour for one logical request, as the interceptor can
observe it: the response to the original send, the outcome of the
`POST /api/v1/auth/refresh` call (a new access token on success), and the
response to the replayed send. -/
structure Server where
  first : Except ApiError String
  refresh : Except ApiError String
  second : Except ApiError String
  deriving DecidableEq, Repr

/-- What one pass through the client produced: the post `localStorage`, the
value the caller's promise settles with, how many times the refresh endpoint
was called, how many times the original request was replayed, and whether
`window.location.href = '/login'` was executed. -/
structure InterceptResult where
  ls : LocalStorage
  result : Except ApiError String
  refreshCalls : Nat
  replays : Nat
  redirected : Bool
  deriving DecidableEq, Repr

/-- The error branch of the response interceptor for a request already
flagged `_retry = true` (the replayed request): the refresh branch is
skipped, the error is toasted and the promise rejected.  Neither
`clearTokens` nor the login redirect runs here. -/
def handleErrorRetried (ls : LocalStorage) (e : ApiError) : InterceptResult :=
  { ls := ls, result := .error e,
    refreshCalls := 0, replays := 0, redirected := false }

/-- The error branch of the response interceptor for a request not yet
flagged as a retry (src/services/api.ts lines 42-76).  On a 401 with a
stored refresh token it calls the refresh endpoint; on refresh success it
persists the new access token and replays the original request (now flagged
`_retry`, so its own error handling is `handleErrorRetried`).  Because the
replay is `return this.client(originalRequest)` without `await`, a
rejection of the replay is NOT caught by the surrounding try/catch: the
catch (clearTokens + redirect) runs only when the refresh call itself
rejects. -/
def handleErrorFresh (ls : LocalStorage) (sv : Server) (e : ApiError) :
    InterceptResult :=
  if e.status = some 401 then
    match ls.refreshToken with
    | some _ =>
        match sv.refresh with
        | .ok newToken =>
            let ls1 := { ls with accessToken := some newToken }
            match sv.second with
            | .ok body =>
                { ls := ls1, result := .ok body,
                  refreshCalls := 1, replays := 1, redirected := false }
            | .error e2 =>
                let r := handleErrorRetried ls1 e2
                { r with refreshCalls := 1, replays := 1 }
        | .error refreshError =>
            { ls := clearTokens ls, result := .error refreshError,
              refreshCalls := 1, replays := 0, redirected := true }
    | none =>
        -- `if (refreshToken)` is falsy: fall through to the generic
        -- toast-and-reject code below the refresh block
        { ls := ls, result := .error e,
          refreshCalls := 0, replays := 0, redirected := false }
  else
    { ls := ls, result := .error e,
      refreshCalls := 0, replays := 0, redirected := false }

/-- One logical request through `this.client`: a successful response passes
straight through the interceptor; an error response goes to the fresh-request
error branch. -/
def runRequest (ls : LocalStorage) (sv : Server) : InterceptResult :=
  match sv.first with
  | .ok body =>
      { ls := ls, result := .ok body,
        refreshCalls := 0, replays := 0, redirected := false }
  | .error e => handleErrorFresh ls sv e

-- ===============================================================
-- User collection store (useUserStore, src/store/userStore.ts)
-- ===============================================================

/-- The user store's state (`UserState` in src/types/index.ts). -/
structure UserState where
  users : List User
  currentUser : Option User
  isLoading : Bool
  error : Option String
  deriving DecidableEq, Repr

/-- The initial user store state (src/store/userStore.ts lines 16-19). -/
def initialUserState : UserState :=
  { users := [], currentUser := none, isLoading := false, error := none }

/-- Result of a user store mutation: post-state, the value returned or error
re-raised, and the toasts emitted. -/
structure UserOpResult where
  state : UserState
  result : Except StoreError Unit
  toasts : List String
  deriving DecidableEq, Repr

namespace UserStore

/-- The `set({ isLoading: true, error: null })` every user store operation
performs before its api call (src/store/userStore.ts lines 22, 34, 46, 64,
85). -/
def opStart (s : UserState) : UserState :=
  { s with isLoading := true, error := none }

/-- The continuation of `createUser` after the api call resolves
(src/store/userStore.ts lines 47-60), applied to the started state. -/
def createUserFinish (s : UserState) (outcome : Except ApiError User) :
    UserOpResult :=
  match outcome with
  | .ok newUser =>
      { state := { s with users := s.users ++ [newUser], isLoading := false },
        result := .ok (),
        toasts := ["User created successfully!"] }
  | .error e =>
      let message := e.errorOr "Failed to create user"
      { state := { s with error := some message, isLoading := false },
        result := .error (.api e),
        toasts := [message] }

/-- `createUser` (src/store/userStore.ts lines 45-61). -/
def createUser (s : UserState) (outcome : Except ApiError User) :
    UserOpResult :=
  createUserFinish (opStart s) outcome

/-- The continuation of `updateUser` after the api call resolves
(src/store/userStore.ts lines 65-81), applied to the started state. -/
def updateUserFinish (s : UserState) (userId : String)
    (outcome : Except ApiError User) : UserOpResult :=
  match outcome with
  | .ok updatedUser =>
      { state :=
          { s with
            users := s.users.map fun user =>
              if user.userId = userId then updatedUser else user,
            currentUser :=
              match s.currentUser with
              | some c => if c.userId = userId then some updatedUser else some c
              | none => none,
            isLoading := false },
        result := .ok (),
        toasts := ["User updated successfully!"] }
  | .error e =>
      let message := e.errorOr "Failed to update user"
      { state := { s with error := some message, isLoading := false },
        result := .error (.api e),
        toasts := [message] }

/-- `updateUser` (src/store/userStore.ts lines 63-82). -/
def updateUser (s : UserState) (userId : String)
    (outcome : Except ApiError User) : UserOpResult :=
  updateUserFinish (opStart s) userId outcome

/-- The continuation of `deleteUser` after the api call resolves
(src/store/userStore.ts lines 86-98), applied to the started state. -/
def deleteUserFinish (s : UserState) (userId : String)
    (outcome : Except ApiError Unit) : UserOpResult :=
  match outcome with
  | .ok _ =>
      { state :=
          { s with
            users := s.users.filter fun user => user.userId ≠ userId,
            currentUser :=
              match s.currentUser with
              | some c => if c.userId = userId then none else some c
              | none => none,
            isLoading := false },
        result := .ok (),
        toasts := ["User deleted successfully!"] }
  | .error e =>
      let message := e.errorOr "Failed to delete user"
      { state := { s with error := some message, isLoading := false },
        result := .error (.api e),
        toasts := [message] }

/-- `deleteUser` (src/store/userStore.ts lines 84-100). -/
def deleteUser (s : UserState) (userId : String)
    (outcome : Except ApiError Unit) : UserOpResult :=
  deleteUserFinish (opStart s) userId outcome

/-- The continuation of `fetchUsers` (src/store/userStore.ts lines 23-30):
fetch failures are recorded in the error field, never re-raised. -/
def fetchUsersFinish (s : UserState) (outcome : Except ApiError (List User)) :
    UserOpResult :=
  match outcome with
  | .ok received =>
      { state := { s with users := received, isLoading := false },
        result := .ok (), toasts := [] }
  | .error e =>
      let message := e.errorOr "Failed to fetch users"
      { state := { s with error := some message, isLoading := false },
        result := .ok (), toasts := [message] }

/-- `fetchUsers` (src/store/userStore.ts lines 21-31). -/
def fetchUsers (s : UserState) (outcome : Except ApiError (List User)) :
    UserOpResult :=
  fetchUsersFinish (opStart s) outcome

/-- The continuation of `fetchUserById` (src/store/userStore.ts lines
35-42). -/
def fetchUserByIdFinish (s : UserState) (outcome : Except ApiError User) :
    UserOpResult :=
  match outcome with
  | .ok received =>
      { state := { s with currentUser := some received, isLoading := false },
        result := .ok (), toasts := [] }
  | .error e =>
      let message := e.errorOr "Failed to fetch user"
      { state := { s with error := some message, isLoading := false },
        result := .ok (), toasts := [message] }

/-- `fetchUserById` (src/store/userStore.ts lines 33-43). -/
def fetchUserById (s : UserState) (outcome : Except ApiError User) :
    UserOpResult :=
  fetchUserByIdFinish (opStart s) outcome

end UserStore

-- ===============================================================
-- Authorization store (useAuthorizationStore, src/store/authStore.ts
-- lines 246-369)
-- ===============================================================

/-- The authorization store's state (`AuthorizationState` in
src/types/index.ts).  The JavaScript objects `userRoles` /
`userPermissions` (`{ [userId: string]: Role[] }`) are modelled as
association lists keyed by user id. -/
structure AuthorizationState where
  roles : List Role
  permissions : List Permission
  userRoles : List (String × List Role)
  userPermissions : List (String × List Permission)
  isLoading : Bool
  error : Option String
  deriving DecidableEq, Repr

/-- The initial authorization store state (src/store/authStore.ts lines
247-252). -/
def initialAuthzState : AuthorizationState :=
  { roles := [], permissions := [], userRoles := [], userPermissions := [],
    isLoading := false, error := none }

/-- The spread-update `{ ...m, [k]: v }` on a JavaScript object: an existing
key keeps its position and gets the new value; a new key is appended. -/
def recordSet {α : Type} (m : List (String × α)) (k : String) (v : α) :
    List (String × α) :=
  if m.any (fun p => p.1 = k) then
    m.map fun p => if p.1 = k then (k, v) else p
  else
    m ++ [(k, v)]

/-- Result of an authorization store mutation: post-state, the value
returned or error re-raised, and the toasts emitted. -/
structure AuthzOpResult where
  state : AuthorizationState
  result : Except StoreError Unit
  toasts : List String
  deriving DecidableEq, Repr

/-- The `data` field of the `POST /authorization/check-permission` envelope
(`PermissionCheckResponse` in src/types/index.ts, reduced to the field the
store reads). -/
structure PermissionCheckResponse where
  hasPermission : Bool
  deriving DecidableEq, Repr

/-- The response envelope `{ success, data, message }` (`ApiResponse` in
src/types/index.ts) for calls where the store reads through `.data`. -/
structure ApiEnvelope (α : Type) where
  success : Bool
  data : α
  message : Option String
  deriving DecidableEq, Repr

namespace AuthzStore

/-- The `set({ isLoading: true, error: null })` performed before the api
call by `fetchRoles`, `fetchPermissions`, `createRole` and
`createPermission` (src/store/authStore.ts lines 255, 266, 277, 294). -/
def opStart (s : AuthorizationState) : AuthorizationState :=
  { s with isLoading := true, error := none }

/-- The continuation of `fetchRoles` after the api call resolves
(src/store/authStore.ts lines 256-262), applied to the started state;
failures are recorded in the error field, never re-raised and not
toasted. -/
def fetchRolesFinish (s : AuthorizationState)
    (outcome : Except ApiError (List Role)) : AuthzOpResult :=
  match outcome with
  | .ok received =>
      { state := { s with roles := received, isLoading := false },
        result := .ok (), toasts := [] }
  | .error e =>
      { state := { s with error := some (e.errorOr "Failed to fetch roles"),
                          isLoading := false },
        result := .ok (), toasts := [] }

/-- `fetchRoles` (src/store/authStore.ts lines 254-263). -/
def fetchRoles (s : AuthorizationState)
    (outcome : Except ApiError (List Role)) : AuthzOpResult :=
  fetchRolesFinish (opStart s) outcome

/-- The continuation of `fetchPermissions` after the api call resolves
(src/store/authStore.ts lines 267-273), applied to the started state. -/
def fetchPermissionsFinish (s : AuthorizationState)
    (outcome : Except ApiError (List Permission)) : AuthzOpResult :=
  match outcome with
  | .ok received =>
      { state := { s with permissions := received, isLoading := false },
        result := .ok (), toasts := [] }
  | .error e =>
      { state :=
          { s with error := some (e.errorOr "Failed to fetch permissions"),
                   isLoading := false },
        result := .ok (), toasts := [] }

/-- `fetchPermissions` (src/store/authStore.ts lines 265-274). -/
def fetchPermissions (s : AuthorizationState)
    (outcome : Except ApiError (List Permission)) : AuthzOpResult :=
  fetchPermissionsFinish (opStart s) outcome

/-- The continuation of `createRole` after the api call resolves
(src/store/authStore.ts lines 278-290), applied to the started state: on
success the returned role is appended and a success toast emitted; on
failure the error is recorded (no toast) and re-raised. -/
def createRoleFinish (s : AuthorizationState)
    (outcome : Except ApiError Role) : AuthzOpResult :=
  match outcome with
  | .ok newRole =>
      { state := { s with roles := s.roles ++ [newRole], isLoading := false },
        result := .ok (), toasts := ["Role created successfully!"] }
  | .error e =>
      { state := { s with error := some (e.errorOr "Failed to create role"),
                          isLoading := false },
        result := .error (.api e), toasts := [] }

/-- `createRole` (src/store/authStore.ts lines 276-291). -/
def createRole (s : AuthorizationState)
    (outcome : Except ApiError Role) : AuthzOpResult :=
  createRoleFinish (opStart s) outcome

/-- The continuation of `createPermission` after the api call resolves
(src/store/authStore.ts lines 295-307), applied to the started state. -/
def createPermissionFinish (s : AuthorizationState)
    (outcome : Except ApiError Permission) : AuthzOpResult :=
  match outcome with
  | .ok newPermission =>
      { state := { s with permissions := s.permissions ++ [newPermission],
                          isLoading := false },
        result := .ok (), toasts := ["Permission created successfully!"] }
  | .error e =>
      { state :=
          { s with error := some (e.errorOr "Failed to create permission"),
                   isLoading := false },
        result := .error (.api e), toasts := [] }

/-- `createPermission` (src/store/authStore.ts lines 293-308). -/
def createPermission (s : AuthorizationState)
    (outcome : Except ApiError Permission) : AuthzOpResult :=
  createPermissionFinish (opStart s) outcome

/-- The state changes `assignRole` applies before its api call
(src/store/authStore.ts lines 310-312): none — the function body starts
directly with `try { await api.assignRole(...) }`, with no `set` call. -/
def assignRolePre (s : AuthorizationState) : AuthorizationState := s

/-- The state changes `revokeRole` applies before its api call
(src/store/authStore.ts lines 323-325): none. -/
def revokeRolePre (s : AuthorizationState) : AuthorizationState := s

/-- The state changes `fetchUserRoles` applies before its api call
(src/store/authStore.ts lines 336-338): none. -/
def fetchUserRolesPre (s : AuthorizationState) : AuthorizationState := s

/-- The state changes `fetchUserPermissions` applies before its api call
(src/store/authStore.ts lines 347-349): none. -/
def fetchUserPermissionsPre (s : AuthorizationState) : AuthorizationState := s

/-- `fetchUserRoles` (src/store/authStore.ts lines 336-345): on success
merges the fetched list into the per-user map; on failure only
`console.error` runs — the error field is not set, the map is untouched and
nothing is re-raised (the promise resolves). -/
def fetchUserRoles (s : AuthorizationState) (userId : String)
    (outcome : Except ApiError (List Role)) : AuthorizationState :=
  match outcome with
  | .ok fetched => { s with userRoles := recordSet s.userRoles userId fetched }
  | .error _ => s

/-- `fetchUserPermissions` (src/store/authStore.ts lines 347-356): same
shape as `fetchUserRoles`. -/
def fetchUserPermissions (s : AuthorizationState) (userId : String)
    (outcome : Except ApiError (List Permission)) : AuthorizationState :=
  match outcome with
  | .ok fetched =>
      { s with userPermissions := recordSet s.userPermissions userId fetched }
  | .error _ => s

/-- `assignRole` (src/store/authStore.ts lines 310-321): awaits the assign
call, then `await get().fetchUserRoles(userId)` (which never rejects), then
toasts success; a failure of the assign call itself is toasted and
re-raised. -/
def assignRole (s : AuthorizationState) (userId : String) (_roleId : String)
    (assignOutcome : Except ApiError Unit)
    (rolesOutcome : Except ApiError (List Role)) : AuthzOpResult :=
  match assignOutcome with
  | .ok _ =>
      { state := fetchUserRoles s userId rolesOutcome,
        result := .ok (),
        toasts := ["Role assigned successfully!"] }
  | .error e =>
      { state := s,
        result := .error (.api e),
        toasts := [e.errorOr "Failed to assign role"] }

/-- `revokeRole` (src/store/authStore.ts lines 323-334): same shape as
`assignRole`. -/
def revokeRole (s : AuthorizationState) (userId : String) (_roleId : String)
    (revokeOutcome : Except ApiError Unit)
    (rolesOutcome : Except ApiError (List Role)) : AuthzOpResult :=
  match revokeOutcome with
  | .ok _ =>
      { state := fetchUserRoles s userId rolesOutcome,
        result := .ok (),
        toasts := ["Role revoked successfully!"] }
  | .error e =>
      { state := s,
        result := .error (.api e),
        toasts := [e.errorOr "Failed to revoke role"] }

/-- `checkPermission` (src/store/authStore.ts lines 358-366): the function
never calls `set` (the state is returned unchanged by construction), returns
the envelope's `data.hasPermission` on success, and returns `false` from the
catch block on any failure — it never throws. -/
def checkPermission (s : AuthorizationState)
    (outcome : Except ApiError (ApiEnvelope PermissionCheckResponse)) :
    AuthorizationState × Bool :=
  match outcome with
  | .ok envelope => (s, envelope.data.hasPermission)
  | .error _ => (s, false)

end AuthzStore

-- ===============================================================
-- Concrete sample inputs used by counterexamples and witnesses
-- ===============================================================

/-- A sample identity snapshot. -/
def sampleUserInfo : UserInfo :=
  { userId := "u1", email := "u1@example.com", username := "u1", name := "User One" }

/-- A sample non-401 api failure (e.g. a network error). -/
def sampleErr : ApiError :=
  { status := some 500, respDataError := none, message := some "Network Error" }

/-- A 401 response error as the interceptor sees it. -/
def err401 : ApiError :=
  { status := some 401, respDataError := none,
    message := some "Request failed with status code 401" }

/-- An authenticated session state with both tokens stored. -/
def sampleAuthState : AuthState :=
  { user := some sampleUserInfo, token := some "atk", refreshToken := some "rtk",
    isAuthenticated := true, isLoading := false }

/-- `localStorage` holding the credentials matching `sampleAuthState`. -/
def sampleLS : LocalStorage :=
  { accessToken := some "atk", refreshToken := some "rtk", user := none }

/-- Server behaviour: original request 401s, the refresh succeeds with a new
token, and the replayed request 401s again. -/
def sv401retry : Server :=
  { first := .error err401, refresh := .ok "newTok", second := .error err401 }

/-- A sample managed user record. -/
def sampleUser : User :=
  { userId := "a", email := "a@example.com", username := "alice" }

/-- A server-returned record re-using the id of `sampleUser`. -/
def dupNewUser : User :=
  { userId := "a", email := "a2@example.com", username := "alice2" }

/-- A user store whose collection already contains a record with id "a". -/
def dupUserState : UserState :=
  { users := [sampleUser], currentUser := none, isLoading := false, error := none }

-- ===============================================================
-- Theorems
-- ===============================================================

/-- C2: in the session store, the invariant "`isAuthenticated` is true iff
both the identity and the access token are present" holds in the initial
state and is preserved by every completed store operation: login success,
login failure, logout, refreshToken success and refreshToken failure
(well-formed server responses being built into `LoginData`/`RefreshData`). -/
theorem C2_session_invariant (s : AuthState) (ls : LocalStorage)
    (h : authInvariant s) :
    authInvariant initialAuthState ∧
    (∀ d, authInvariant (AuthStore.login s ls (.ok d)).state) ∧
    (∀ e, authInvariant (AuthStore.login s ls (.error e)).state) ∧
    (∀ o, authInvariant (AuthStore.logout s ls o).state) ∧
    (∀ o, authInvariant (AuthStore.refreshTokenOp s ls o).state) := by
  refine ⟨by decide, ?_, ?_, ?_, ?_⟩
  · intro d; simp [AuthStore.login, authInvariant]
  · intro e; simpa [AuthStore.login, authInvariant] using h
  · intro o; simp [AuthStore.logout, authInvariant]
  · intro o
    unfold AuthStore.refreshTokenOp
    cases hrt : s.refreshToken with
    | none => simpa [authInvariant] using h
    | some rt =>
        cases o with
        | ok d => simp [authInvariant]
        | error e => simp [authInvariant]

/-- Witness for C2 at a concrete state: the invariant survives a failed
token refresh started from the initial (anonymous) state. -/
theorem C2_session_invariant_witness :
    authInvariant (AuthStore.refreshTokenOp initialAuthState
      ⟨none, none, none⟩ (.error sampleErr)).state :=
  (C2_session_invariant initialAuthState ⟨none, none, none⟩
    (by decide)).2.2.2.2 (.error sampleErr)

/-- C3: `logout()` always ends with `isAuthenticated = false`, all in-memory
session fields null and all persisted credential keys cleared, whatever the
server-side logout call did, and no error is ever surfaced to the caller. -/
theorem C3_logout_unconditional (s : AuthState) (ls : LocalStorage)
    (o : Except ApiError Unit) :
    (AuthStore.logout s ls o).state.isAuthenticated = false ∧
    (AuthStore.logout s ls o).state.user = none ∧
    (AuthStore.logout s ls o).state.token = none ∧
    (AuthStore.logout s ls o).state.refreshToken = none ∧
    (AuthStore.logout s ls o).ls.accessToken = none ∧
    (AuthStore.logout s ls o).ls.refreshToken = none ∧
    (AuthStore.logout s ls o).ls.user = none ∧
    (AuthStore.logout s ls o).result = .ok () := by
  simp [AuthStore.logout]

/-- C8: a failed `login(credentials)` leaves `user`, `token`,
`refreshToken`, `isAuthenticated` and the persisted keys exactly as they
were, clears only `isLoading`, and re-raises the failure to the caller. -/
theorem C8_login_failure_frame (s : AuthState) (ls : LocalStorage)
    (e : ApiError) :
    (AuthStore.login s ls (.error e)).state.user = s.user ∧
    (AuthStore.login s ls (.error e)).state.token = s.token ∧
    (AuthStore.login s ls (.error e)).state.refreshToken = s.refreshToken ∧
    (AuthStore.login s ls (.error e)).state.isAuthenticated = s.isAuthenticated ∧
    (AuthStore.login s ls (.error e)).state.isLoading = false ∧
    (AuthStore.login s ls (.error e)).ls = ls ∧
    (AuthStore.login s ls (.error e)).result = .error (.api e) := by
  simp [AuthStore.login]

/-- C4 as stated is false: a failed refresh clears only the in-memory
session fields, not the persisted keys.  Concretely, with `accessToken` and
`refreshToken` stored in `localStorage`, a network-level refresh failure
leaves both keys in place. -/
theorem C4_counterexample :
    (AuthStore.refreshTokenOp sampleAuthState sampleLS (.error sampleErr)).ls
        = sampleLS ∧
    sampleLS.accessToken = some "atk" ∧
    sampleLS.refreshToken = some "rtk" := by
  refine ⟨rfl, rfl, rfl⟩

/-- C4 (amended): when a `refreshToken()` call that had a stored refresh
token fails at the network level, the store clears all in-memory credential
state (`user`, `token`, `refreshToken`), sets `isAuthenticated = false`,
and re-raises the error to the caller; the persisted `localStorage`
credential keys are left unchanged. -/
theorem C4_refresh_failure_amended (s : AuthState) (ls : LocalStorage)
    (rt : String) (e : ApiError) (h : s.refreshToken = some rt) :
    (AuthStore.refreshTokenOp s ls (.error e)).state.user = none ∧
    (AuthStore.refreshTokenOp s ls (.error e)).state.token = none ∧
    (AuthStore.refreshTokenOp s ls (.error e)).state.refreshToken = none ∧
    (AuthStore.refreshTokenOp s ls (.error e)).state.isAuthenticated = false ∧
    (AuthStore.refreshTokenOp s ls (.error e)).result = .error (.api e) ∧
    (AuthStore.refreshTokenOp s ls (.error e)).ls = ls := by
  simp [AuthStore.refreshTokenOp, h]

/-- Witness for the amended C4 at a concrete authenticated state. -/
theorem C4_refresh_failure_amended_witness :
    (AuthStore.refreshTokenOp sampleAuthState sampleLS
        (.error sampleErr)).state.user = none :=
  (C4_refresh_failure_amended sampleAuthState sampleLS "rtk" sampleErr rfl).1

/-- C1 as stated is false: when the replayed request also returns 401, the
stored credentials are NOT cleared.  The replay runs with the retry flag
set, so the refresh branch is skipped; and since the replay is returned
without `await`, its rejection bypasses the try/catch that calls
`clearTokens`.  Concretely: original request 401s, refresh succeeds,
replayed request 401s — exactly one refresh and one replay happen, but the
refresh token stays stored, the new access token is persisted and no login
redirect occurs. -/
theorem C1_counterexample :
    (runRequest sampleLS sv401retry).refreshCalls = 1 ∧
    (runRequest sampleLS sv401retry).replays = 1 ∧
    (runRequest sampleLS sv401retry).result = .error err401 ∧
    (runRequest sampleLS sv401retry).ls.refreshToken = some "rtk" ∧
    (runRequest sampleLS sv401retry).ls.accessToken = some "newTok" ∧
    (runRequest sampleLS sv401retry).redirected = false := by
  refine ⟨rfl, rfl, rfl, rfl, rfl, rfl⟩

/-- C1 (amended): for every request whose response has status 401 and that
is not already flagged as a retry, at most one refresh and one replay
occur.  With no stored refresh token the error is rejected unchanged with
no refresh and no replay.  With a stored refresh token: if the refresh
succeeds, exactly one refresh and one replay occur, the new access token is
persisted, the refresh token stays in place, and the caller receives
whatever the replayed request returned (a second 401 is rejected to the
caller with no further refresh or retry and without clearing the stored
credentials); if the refresh itself fails, the stored credentials are
cleared, the caller is redirected to the login page and no replay occurs. -/
theorem C1_amended (ls : LocalStorage) (sv : Server) (e : ApiError)
    (hfirst : sv.first = .error e) (h401 : e.status = some 401) :
    (runRequest ls sv).refreshCalls ≤ 1 ∧
    (runRequest ls sv).replays ≤ 1 ∧
    (ls.refreshToken = none →
      runRequest ls sv =
        { ls := ls, result := .error e,
          refreshCalls := 0, replays := 0, redirected := false }) ∧
    (∀ rt, ls.refreshToken = some rt →
      (∀ tok, sv.refresh = .ok tok →
        (runRequest ls sv).refreshCalls = 1 ∧
        (runRequest ls sv).replays = 1 ∧
        (runRequest ls sv).ls = { ls with accessToken := some tok } ∧
        (runRequest ls sv).redirected = false ∧
        (runRequest ls sv).result = sv.second) ∧
      (∀ re, sv.refresh = .error re →
        runRequest ls sv =
          { ls := clearTokens ls, result := .error re,
            refreshCalls := 1, replays := 0, redirected := true })) := by
  have hrun : runRequest ls sv = handleErrorFresh ls sv e := by
    unfold runRequest; rw [hfirst]
  unfold handleErrorFresh at hrun
  rw [if_pos h401] at hrun
  cases hrt : ls.refreshToken with
  | none =>
      simp only [hrt] at hrun
      refine ⟨by simp [hrun], by simp [hrun], fun _ => hrun, ?_⟩
      intro rt hsome
      cases hsome
  | some rt =>
      simp only [hrt] at hrun
      cases hrf : sv.refresh with
      | ok tok =>
          simp only [hrf] at hrun
          cases hs : sv.second with
          | ok body =>
              simp only [hs] at hrun
              refine ⟨by simp [hrun], by simp [hrun], ?_, ?_⟩
              · intro hnone; cases hnone
              · intro rt' _
                refine ⟨?_, ?_⟩
                · intro tok' htok
                  cases htok
                  exact ⟨by simp [hrun], by simp [hrun], by simp [hrun],
                         by simp [hrun], by simp [hrun, hs]⟩
                · intro re hre; cases hre
          | error e2 =>
              simp only [hs, handleErrorRetried] at hrun
              refine ⟨by simp [hrun], by simp [hrun], ?_, ?_⟩
              · intro hnone; cases hnone
              · intro rt' _
                refine ⟨?_, ?_⟩
                · intro tok' htok
                  cases htok
                  exact ⟨by simp [hrun], by simp [hrun], by simp [hrun],
                         by simp [hrun], by simp [hrun, hs]⟩
                · intro re hre; cases hre
      | error re0 =>
          simp only [hrf] at hrun
          refine ⟨by simp [hrun], by simp [hrun], ?_, ?_⟩
          · intro hnone; cases hnone
          · intro rt' _
            refine ⟨?_, ?_⟩
            · intro tok htok; cases htok
            · intro re hre
              cases hre
              exact hrun

/-- Witness for the amended C1: the double-401 scenario with stored
credentials performs exactly one refresh call. -/
theorem C1_amended_witness :
    (runRequest sampleLS sv401retry).refreshCalls = 1 :=
  (((C1_amended sampleLS sv401retry err401 rfl rfl).2.2.2
      "rtk" rfl).1 "newTok" rfl).1

/-- C5 as stated is false for a prior collection that already holds a
record with the server-returned id: `createUser` appends unconditionally,
so the collection then holds two records with that id, not exactly one. -/
theorem C5_counterexample :
    (UserStore.createUser dupUserState (.ok dupNewUser)).state.users.countP
        (fun u => u.userId == "a") = 2 := by
  rfl

/-- C5 (amended): after `createUser` succeeds with server-returned record
`newUser`, the local collection equals the prior collection with `newUser`
appended after all pre-existing records; and provided no pre-existing record
carries `newUser`'s id, the collection then contains exactly one record with
that id. -/
theorem C5_create_append (s : UserState) (newUser : User) :
    (UserStore.createUser s (.ok newUser)).state.users = s.users ++ [newUser] ∧
    ((∀ u ∈ s.users, u.userId ≠ newUser.userId) →
      (UserStore.createUser s (.ok newUser)).state.users.countP
          (fun u => u.userId == newUser.userId) = 1) := by
  constructor
  · simp [UserStore.createUser, UserStore.createUserFinish, UserStore.opStart]
  · intro hfresh
    have h0 : s.users.countP (fun u => u.userId == newUser.userId) = 0 := by
      rw [List.countP_eq_zero]
      intro a ha
      simpa using hfresh a ha
    simp [UserStore.createUser, UserStore.createUserFinish, UserStore.opStart,
          List.countP_append, h0]

/-- Witness for the amended C5: creating into the empty collection yields
exactly one record with the returned id. -/
theorem C5_create_append_witness :
    (UserStore.createUser initialUserState (.ok sampleUser)).state.users.countP
        (fun u => u.userId == sampleUser.userId) = 1 :=
  (C5_create_append initialUserState sampleUser).2 (by simp [initialUserState])

/-- C6: after `updateUser(Y, patch)` succeeds with server-returned record
`updatedUser`, position by position every record whose id equals `Y` is
replaced by `updatedUser` and every other record is unchanged (hence order
and length are preserved), and the current slot becomes `updatedUser`
exactly when it pointed at a record with id `Y`. -/
theorem C6_update_positional (s : UserState) (userId : String)
    (updatedUser : User) :
    (∀ i : Nat, ((UserStore.updateUser s userId (.ok updatedUser)).state.users[i]?) =
      (s.users[i]?).map (fun u => if u.userId = userId then updatedUser else u)) ∧
    (∀ c, s.currentUser = some c → c.userId = userId →
      (UserStore.updateUser s userId (.ok updatedUser)).state.currentUser
        = some updatedUser) ∧
    (∀ c, s.currentUser = some c → c.userId ≠ userId →
      (UserStore.updateUser s userId (.ok updatedUser)).state.currentUser
        = some c) ∧
    (s.currentUser = none →
      (UserStore.updateUser s userId (.ok updatedUser)).state.currentUser
        = none) := by
  refine ⟨?_, ?_, ?_, ?_⟩
  · intro i
    simp [UserStore.updateUser, UserStore.updateUserFinish, UserStore.opStart,
          List.getElem?_map]
  · intro c hc heq
    simp [UserStore.updateUser, UserStore.updateUserFinish, UserStore.opStart,
          hc, heq]
  · intro c hc hne
    simp [UserStore.updateUser, UserStore.updateUserFinish, UserStore.opStart,
          hc, hne]
  · intro hc
    simp [UserStore.updateUser, UserStore.updateUserFinish, UserStore.opStart,
          hc]

/-- Witness for C6: updating while no record is selected leaves the current
slot empty. -/
theorem C6_update_positional_witness :
    (UserStore.updateUser dupUserState "a" (.ok dupNewUser)).state.currentUser
      = none :=
  (C6_update_positional dupUserState "a" dupNewUser).2.2.2 rfl

/-- C7: `checkPermission` never calls `set` (the store state is returned
unchanged), returns exactly the server's `hasPermission` field on success,
and returns `false` on any failure; its total return type reflects that the
catch block makes it impossible for the call to throw. -/
theorem C7_check_permission_fails_closed (s : AuthorizationState)
    (env : ApiEnvelope PermissionCheckResponse) (e : ApiError) :
    (AuthzStore.checkPermission s (.ok env)).1 = s ∧
    (AuthzStore.checkPermission s (.error e)).1 = s ∧
    (AuthzStore.checkPermission s (.ok env)).2 = env.data.hasPermission ∧
    (AuthzStore.checkPermission s (.error e)).2 = false := by
  exact ⟨rfl, rfl, rfl, rfl⟩

/-- C9 as stated is false: `assignRole` performs no state change before its
api call (its body starts directly with the awaited call), so at the moment
the network call resolves `isLoading` is still false and was never set, and
the whole operation never touches `isLoading` at all. -/
theorem C9_counterexample :
    AuthzStore.assignRolePre initialAuthzState = initialAuthzState ∧
    (AuthzStore.assignRolePre initialAuthzState).isLoading = false ∧
    (AuthzStore.assignRole initialAuthzState "u1" "r1"
        (.ok ()) (.ok [])).state.isLoading = false := by
  exact ⟨rfl, rfl, rfl⟩

/-- C9 (amended): every operation of the user store (`fetchUsers`,
`fetchUserById`, `createUser`, `updateUser`, `deleteUser`) and every
collection-level operation of the authorization store (`fetchRoles`,
`fetchPermissions`, `createRole`, `createPermission`) factors as its
post-network continuation applied to the state produced by its opening
`set({ isLoading: true, error: null })`, so for each of these nine
operations the first state change sets `isLoading` to true and resets
`error` to null before any network call resolves; but `assignRole`,
`revokeRole`, `fetchUserRoles` and `fetchUserPermissions` perform no state
change before their network call. -/
theorem C9_amended (su : UserState) (sa : AuthorizationState) (uid : String)
    (ofu : Except ApiError (List User)) (ofb : Except ApiError User)
    (ocu : Except ApiError User) (ouu : Except ApiError User)
    (odu : Except ApiError Unit)
    (ofr : Except ApiError (List Role))
    (ofp : Except ApiError (List Permission))
    (ocr : Except ApiError Role) (ocp : Except ApiError Permission) :
    (UserStore.opStart su).isLoading = true ∧
    (UserStore.opStart su).error = none ∧
    UserStore.fetchUsers su ofu
      = UserStore.fetchUsersFinish (UserStore.opStart su) ofu ∧
    UserStore.fetchUserById su ofb
      = UserStore.fetchUserByIdFinish (UserStore.opStart su) ofb ∧
    UserStore.createUser su ocu
      = UserStore.createUserFinish (UserStore.opStart su) ocu ∧
    UserStore.updateUser su uid ouu
      = UserStore.updateUserFinish (UserStore.opStart su) uid ouu ∧
    UserStore.deleteUser su uid odu
      = UserStore.deleteUserFinish (UserStore.opStart su) uid odu ∧
    (AuthzStore.opStart sa).isLoading = true ∧
    (AuthzStore.opStart sa).error = none ∧
    AuthzStore.fetchRoles sa ofr
      = AuthzStore.fetchRolesFinish (AuthzStore.opStart sa) ofr ∧
    AuthzStore.fetchPermissions sa ofp
      = AuthzStore.fetchPermissionsFinish (AuthzStore.opStart sa) ofp ∧
    AuthzStore.createRole sa ocr
      = AuthzStore.createRoleFinish (AuthzStore.opStart sa) ocr ∧
    AuthzStore.createPermission sa ocp
      = AuthzStore.createPermissionFinish (AuthzStore.opStart sa) ocp ∧
    AuthzStore.assignRolePre sa = sa ∧
    AuthzStore.revokeRolePre sa = sa ∧
    AuthzStore.fetchUserRolesPre sa = sa ∧
    AuthzStore.fetchUserPermissionsPre sa = sa := by
  exact ⟨rfl, rfl, rfl, rfl, rfl, rfl, rfl, rfl, rfl, rfl, rfl, rfl, rfl,
         rfl, rfl, rfl, rfl⟩

/-- C10: a failed `fetchUserRoles` or `fetchUserPermissions` is fully
swallowed — the store state (error field and per-user cache mappings
included) is left exactly as it was and nothing is raised (both functions
are total into the state type) — and consequently `assignRole` and
`revokeRole` whose re-fetch fails still complete successfully with their
success toast while the cached role list stays stale. -/
theorem C10_fetch_failure_swallowed (s : AuthorizationState)
    (uid rid : String) (e : ApiError) :
    AuthzStore.fetchUserRoles s uid (.error e) = s ∧
    AuthzStore.fetchUserPermissions s uid (.error e) = s ∧
    (AuthzStore.assignRole s uid rid (.ok ()) (.error e)).state = s ∧
    (AuthzStore.assignRole s uid rid (.ok ()) (.error e)).result = .ok () ∧
    (AuthzStore.assignRole s uid rid (.ok ()) (.error e)).toasts
      = ["Role assigned successfully!"] ∧
    (AuthzStore.revokeRole s uid rid (.ok ()) (.error e)).state = s ∧
    (AuthzStore.revokeRole s uid rid (.ok ()) (.error e)).result = .ok () ∧
    (AuthzStore.revokeRole s uid rid (.ok ()) (.error e)).toasts
      = ["Role revoked successfully!"] := by
  exact ⟨rfl, rfl, rfl, rfl, rfl, rfl, rfl, rfl⟩

end IamFrontend
